import Mathlib

/-!
# Verification of the AI Career Mentor application logic

Shallow embedding of `src/ell_exp.py`: the session-held credential, the two
Generation Gateway operations (`generate_career_guidance`,
`generate_interview_questions`), and the button handlers of `main` for the
Career Guidance view, the Interview Question Generator view, and the
How It Works "Run Example" view.

Modelling conventions:
* The Streamlit session value `st.session_state.openai_api_key` is an
  `Option String` (`none` is Python `None`).
* Side effects on the page (`st.error`, `st.success`, `st.info`, `st.write`,
  `st.markdown`, `st.subheader`, spinner text aside) are modelled as a list of
  `Display` items emitted in order.
* The external provider (the `ell.complex`-decorated `_generate` call, which
  sends the prompt and parses the response into the declared pydantic shape)
  is modelled as an explicit oracle `String → Except String α`: it receives
  the interpolated prompt string and either returns the parsed structured
  object (the `.parsed` payload of the ell message) or raises, represented by
  `Except.error` carrying the exception text.  Gateway results also carry the
  number of provider invocations actually performed, so that "no external
  call is made" is a provable statement.
* Python truthiness of a string (`if interests and skills and goals`,
  `if api_key`, `if role`) is emptiness testing; truthiness of the gateway's
  return value (`if response:`) is `Option.isSome`, since the ell message
  object is always truthy and the gateway otherwise returns `None`.
-/

/-- Pydantic model `CareerSuggestion`: `career` and `reasons` string fields. -/
structure CareerSuggestion where
  career : String
  reasons : String
deriving Repr, DecidableEq

/-- Pydantic model `InterviewQuestions`: a role and a list of questions. -/
structure InterviewQuestions where
  role : String
  questions : List String
deriving Repr, DecidableEq

/-- One visible UI output produced while handling an action. -/
inductive Display where
  | error (msg : String)
  | warning (msg : String)
  | success (msg : String)
  | subheader (msg : String)
  | info (msg : String)
  | write (msg : String)
  | markdown (msg : String)
deriving Repr, DecidableEq

/-- `is_api_key_set`: `st.session_state.openai_api_key is not None`. -/
def is_api_key_set (key : Option String) : Bool :=
  key.isSome

/-- The message shown by every missing-credential branch. -/
def missingKeyMsg : String :=
  "Please enter your OpenAI API key in the sidebar first!"

/-- Outcome of one gateway operation: the value returned to the caller, the
displays emitted, and how many external provider calls were performed. -/
structure GatewayResult (α : Type) where
  ret : Option α
  displays : List Display
  providerCalls : Nat
deriving Repr

/-- Prompt built by `_generate` inside `generate_career_guidance`
(f-string interpolation of the three inputs). -/
def careerPrompt (interests skills goals : String) : String :=
  "Based on interests: " ++ interests ++ ", skills: " ++ skills ++
    ", and goals: " ++ goals ++ ", suggest a suitable career."

/-- Prompt built by `_generate` inside `generate_interview_questions`. -/
def interviewPrompt (role : String) : String :=
  "Generate 5 interview questions for the role of " ++ role ++ "."

/-- `generate_career_guidance(interests, skills, goals)`: abort with the
missing-key error when no key is stored; otherwise invoke the provider once
with the interpolated prompt, returning the parsed object on success and, on
any raised exception `e`, emitting `st.error(f"Error: {str(e)}")` and
returning `None`.  The `try`/`except Exception` is total: every provider
outcome maps to a defined result. -/
def generate_career_guidance (key : Option String)
    (provider : String → Except String CareerSuggestion)
    (interests skills goals : String) : GatewayResult CareerSuggestion :=
  if is_api_key_set key then
    match provider (careerPrompt interests skills goals) with
    | Except.ok r => { ret := some r, displays := [], providerCalls := 1 }
    | Except.error e =>
        { ret := none, displays := [Display.error ("Error: " ++ e)],
          providerCalls := 1 }
  else
    { ret := none, displays := [Display.error missingKeyMsg],
      providerCalls := 0 }

/-- `generate_interview_questions(role)`: same shape as
`generate_career_guidance`, with the interview prompt and result type. -/
def generate_interview_questions (key : Option String)
    (provider : String → Except String InterviewQuestions)
    (role : String) : GatewayResult InterviewQuestions :=
  if is_api_key_set key then
    match provider (interviewPrompt role) with
    | Except.ok r => { ret := some r, displays := [], providerCalls := 1 }
    | Except.error e =>
        { ret := none, displays := [Display.error ("Error: " ++ e)],
          providerCalls := 1 }
  else
    { ret := none, displays := [Display.error missingKeyMsg],
      providerCalls := 0 }

/-- Displays produced for a successful career-guidance response
(`main`, Career Guidance branch, `if response:` body). -/
def renderCareer (r : CareerSuggestion) : List Display :=
  [Display.success ("Analysis Complete!"),
   Display.subheader ("🌟 Suggested Career Path"),
   Display.info r.career,
   Display.subheader ("💡 Why This Path?"),
   Display.write r.reasons]

/-- Displays produced for a successful interview-questions response:
`for idx, question in enumerate(response.parsed.questions, 1):
  st.markdown(f"**Q{idx}.** {question}")`. -/
def renderQuestions (qs : List String) : List Display :=
  (List.enumFrom 1 qs).map
    (fun p => Display.markdown ("**Q" ++ toString p.1 ++ ".** " ++ p.2))

/-- The Career Guidance view's button handler (`main`, lines 143-156):
the displays emitted and the number of external provider calls made for one
press of "✨ Generate Career Advice". -/
def career_button_handler (key : Option String)
    (provider : String → Except String CareerSuggestion)
    (interests skills goals : String) : List Display × Nat :=
  if ¬ is_api_key_set key then
    ([Display.error missingKeyMsg], 0)
  else if interests ≠ "" ∧ skills ≠ "" ∧ goals ≠ "" then
    let g := generate_career_guidance key provider interests skills goals
    match g.ret with
    | some r => (g.displays ++ renderCareer r, g.providerCalls)
    | none => (g.displays, g.providerCalls)
  else
    ([Display.error ("Please fill in all fields to get personalized advice!")], 0)

/-- The Interview Question Generator view's button handler
(`main`, lines 164-175): one press of "🎲 Generate Questions". -/
def questions_button_handler (key : Option String)
    (provider : String → Except String InterviewQuestions)
    (role : String) : List Display × Nat :=
  if ¬ is_api_key_set key then
    ([Display.error missingKeyMsg], 0)
  else if role ≠ "" then
    let g := generate_interview_questions key provider role
    match g.ret with
    | some r =>
        (g.displays ++ [Display.success ("Questions Generated!")] ++
          renderQuestions r.questions, g.providerCalls)
    | none => (g.displays, g.providerCalls)
  else
    ([Display.error ("Please enter a job role!")], 0)

/-- The hard-coded poem block in the How It Works view. -/
def examplePoem : String :=
  "*here's a poem for john, the coding star* " ++
  "in lines of code, john finds his way, debugging issues day by day, " ++
  "with coffee close and screen aglow, he makes the functions smoothly flow. " ++
  "a developer's life, he chose to lead, turning concepts into reality with speed, " ++
  "in john's world of ones and zeros bright, every bug fixed brings pure delight."

/-- The How It Works view's "🚀 Run Example" handler (`main`, lines 210-228):
either the missing-key error, or a fixed markdown block and a success message.
No branch invokes a provider. -/
def run_example_handler (key : Option String) : List Display × Nat :=
  if ¬ is_api_key_set key then
    ([Display.error missingKeyMsg], 0)
  else
    ([Display.markdown ("---"), Display.markdown examplePoem,
      Display.success ("Yay! See how easy it is to create magic with ell? 🎉")], 0)

/-- The sidebar credential update (`main`, lines 112-116): if the text field
holds a non-empty string, store it, overwriting any prior value; otherwise
leave the stored value untouched and show a warning. -/
def sidebar_update (prev : Option String) (api_key : String) :
    Option String × List Display :=
  if api_key ≠ "" then
    (some api_key, [Display.success ("✅ API key set successfully!")])
  else
    (prev, [Display.warning ("⚠️ Please enter your OpenAI API key to use the app features")])

/-- Session-credential states reachable in a run: the key starts absent
(lines 17-18) and is only ever modified by the sidebar update. -/
inductive ReachableKey : Option String → Prop where
  | init : ReachableKey none
  | step : ∀ {s : Option String} (input : String),
      ReachableKey s → ReachableKey (sidebar_update s input).1

/-- In every reachable state the stored credential, when present, is a
non-empty string. -/
theorem reachable_key_nonempty {s : Option String} (h : ReachableKey s) :
    s = none ∨ ∃ k, s = some k ∧ k ≠ "" := by
  induction h with
  | init => exact Or.inl rfl
  | step input _ ih =>
      by_cases hi : input = ""
      · simpa [sidebar_update, hi] using ih
      · exact Or.inr ⟨input, by simp [sidebar_update, hi], hi⟩

/-- C1: for every stored credential and every input, whenever the provider
invocation raises a fault, `generate_career_guidance` and
`generate_interview_questions` catch it, emit a human-readable error message
(`"Error: " ++ e`), and return `none`; the embedding of the catch-all
`try`/`except` is a total function, so no fault propagates to the caller. -/
theorem provider_fault_caught (key : Option String)
    (hk : is_api_key_set key = true)
    (pc : String → Except String CareerSuggestion)
    (pq : String → Except String InterviewQuestions)
    (interests skills goals role e1 e2 : String)
    (hc : pc (careerPrompt interests skills goals) = Except.error e1)
    (hq : pq (interviewPrompt role) = Except.error e2) :
    (generate_career_guidance key pc interests skills goals).ret = none ∧
    (generate_career_guidance key pc interests skills goals).displays
      = [Display.error ("Error: " ++ e1)] ∧
    (generate_interview_questions key pq role).ret = none ∧
    (generate_interview_questions key pq role).displays
      = [Display.error ("Error: " ++ e2)] := by
  simp [generate_career_guidance, generate_interview_questions, hk, hc, hq]

/-- Concrete instance of `provider_fault_caught`: a key is set and both
providers raise; both gateways return `none` and display the message. -/
theorem provider_fault_caught_witness :
    (generate_career_guidance (some ("sk")) (fun _ => Except.error ("boom"))
        ("a") ("b") ("c")).ret = none ∧
    (generate_career_guidance (some ("sk")) (fun _ => Except.error ("boom"))
        ("a") ("b") ("c")).displays = [Display.error ("Error: " ++ "boom")] ∧
    (generate_interview_questions (some ("sk")) (fun _ => Except.error ("net"))
        ("dev")).ret = none ∧
    (generate_interview_questions (some ("sk")) (fun _ => Except.error ("net"))
        ("dev")).displays = [Display.error ("Error: " ++ "net")] :=
  provider_fault_caught (some ("sk")) rfl _ _ ("a") ("b") ("c") ("dev")
    ("boom") ("net") rfl rfl

/-- C2: with no credential stored, either generation button displays the
missing-credential error and performs zero provider calls, for every
provider behaviour and every input, complete or not. -/
theorem no_key_no_call
    (pc : String → Except String CareerSuggestion)
    (pq : String → Except String InterviewQuestions)
    (interests skills goals role : String) :
    career_button_handler none pc interests skills goals
      = ([Display.error missingKeyMsg], 0) ∧
    questions_button_handler none pq role
      = ([Display.error missingKeyMsg], 0) := by
  simp [career_button_handler, questions_button_handler, is_api_key_set]

/-- C3: with a credential set, if a required field is empty the handler
displays the incomplete-input error and performs zero provider calls. -/
theorem incomplete_input_no_call (key : Option String)
    (hk : is_api_key_set key = true)
    (pc : String → Except String CareerSuggestion)
    (pq : String → Except String InterviewQuestions)
    (interests skills goals : String)
    (hempty : interests = "" ∨ skills = "" ∨ goals = "") :
    career_button_handler key pc interests skills goals
      = ([Display.error ("Please fill in all fields to get personalized advice!")], 0) ∧
    questions_button_handler key pq ("")
      = ([Display.error ("Please enter a job role!")], 0) := by
  constructor
  · rcases hempty with h | h | h <;> simp [career_button_handler, hk, h]
  · simp [questions_button_handler, hk]

/-- Concrete instance of `incomplete_input_no_call`: key set, empty
interests field (and empty role): errors shown, zero provider calls. -/
theorem incomplete_input_no_call_witness :
    career_button_handler (some ("sk"))
        (fun _ => Except.ok ⟨"x", "y"⟩) ("") ("skills") ("goals")
      = ([Display.error ("Please fill in all fields to get personalized advice!")], 0) ∧
    questions_button_handler (some ("sk"))
        (fun _ => Except.ok ⟨"r", ["q"]⟩) ("")
      = ([Display.error ("Please enter a job role!")], 0) :=
  incomplete_input_no_call (some ("sk")) rfl _ _ ("") ("skills") ("goals")
    (Or.inl rfl)

/-- C4: with a credential set and all required inputs non-empty, one button
press performs exactly one provider call, whatever the provider returns. -/
theorem one_call_per_trigger (key : Option String)
    (hk : is_api_key_set key = true)
    (pc : String → Except String CareerSuggestion)
    (pq : String → Except String InterviewQuestions)
    (interests skills goals role : String)
    (hi : interests ≠ "") (hs : skills ≠ "") (hg : goals ≠ "")
    (hr : role ≠ "") :
    (career_button_handler key pc interests skills goals).2 = 1 ∧
    (questions_button_handler key pq role).2 = 1 := by
  constructor
  · rcases h : pc (careerPrompt interests skills goals) with e | r <;>
      simp [career_button_handler, generate_career_guidance, hk, hi, hs, hg, h]
  · rcases h : pq (interviewPrompt role) with e | r <;>
      simp [questions_button_handler, generate_interview_questions, hk, hr, h]

/-- Concrete instance of `one_call_per_trigger`: key set, complete inputs,
succeeding providers: exactly one provider call each. -/
theorem one_call_per_trigger_witness :
    (career_button_handler (some ("sk"))
        (fun _ => Except.ok ⟨"ML Engineer", "fit"⟩) ("AI") ("coding") ("startup")).2 = 1 ∧
    (questions_button_handler (some ("sk"))
        (fun _ => Except.ok ⟨"dev", ["q1"]⟩) ("dev")).2 = 1 :=
  one_call_per_trigger (some ("sk")) rfl _ _ ("AI") ("coding") ("startup") ("dev")
    (by decide) (by decide) (by decide) (by decide)

/-- C5: with a credential set and complete inputs, a successful provider
response `r` renders exactly the success banner, the two subheaders, and the
`career` and `reasons` fields verbatim (`st.info(response.parsed.career)`,
`st.write(response.parsed.reasons)`). -/
theorem career_rendered_verbatim (key : Option String)
    (hk : is_api_key_set key = true)
    (pc : String → Except String CareerSuggestion)
    (interests skills goals : String)
    (hi : interests ≠ "") (hs : skills ≠ "") (hg : goals ≠ "")
    (r : CareerSuggestion)
    (hok : pc (careerPrompt interests skills goals) = Except.ok r) :
    (career_button_handler key pc interests skills goals).1
      = [Display.success ("Analysis Complete!"),
         Display.subheader ("🌟 Suggested Career Path"),
         Display.info r.career,
         Display.subheader ("💡 Why This Path?"),
         Display.write r.reasons] := by
  simp [career_button_handler, generate_career_guidance, renderCareer,
    hk, hi, hs, hg, hok]

/-- Concrete instance of `career_rendered_verbatim`: the spec's example
stub response is rendered with both strings exactly as returned. -/
theorem career_rendered_verbatim_witness :
    (career_button_handler (some ("sk"))
        (fun _ => Except.ok ⟨"ML Engineer", "Strong technical fit"⟩)
        ("AI") ("coding") ("startup")).1
      = [Display.success ("Analysis Complete!"),
         Display.subheader ("🌟 Suggested Career Path"),
         Display.info ("ML Engineer"),
         Display.subheader ("💡 Why This Path?"),
         Display.write ("Strong technical fit")] :=
  career_rendered_verbatim (some ("sk")) rfl _ ("AI") ("coding") ("startup")
    (by decide) (by decide) (by decide) ⟨"ML Engineer", "Strong technical fit"⟩ rfl

/-- C6: with a credential set and a non-empty role, a successful provider
response with question list `qs` renders, after the success banner, exactly
`qs.length` items; the item at position `i` is numbered `i + 1` and carries
the question at position `i` of `qs`, so numbering starts at 1, is
consecutive, and order is preserved. -/
theorem questions_rendered_numbered (key : Option String)
    (hk : is_api_key_set key = true)
    (pq : String → Except String InterviewQuestions)
    (role : String) (hr : role ≠ "")
    (r : InterviewQuestions)
    (hok : pq (interviewPrompt role) = Except.ok r) :
    (questions_button_handler key pq role).1
      = Display.success ("Questions Generated!") :: renderQuestions r.questions ∧
    (renderQuestions r.questions).length = r.questions.length ∧
    ∀ i : Nat, (renderQuestions r.questions)[i]?
      = (r.questions[i]?).map
          (fun q => Display.markdown ("**Q" ++ toString (i + 1) ++ ".** " ++ q)) := by
  refine ⟨?_, ?_, ?_⟩
  · simp [questions_button_handler, generate_interview_questions, hk, hr, hok]
  · simp [renderQuestions, List.enumFrom_length]
  · intro i
    rcases hqi : r.questions[i]? with _ | q
    · simp [renderQuestions, List.getElem?_map, List.getElem?_enumFrom, hqi]
    · simp [renderQuestions, List.getElem?_map, List.getElem?_enumFrom, hqi,
        Nat.add_comm]

/-- Concrete instance of `questions_rendered_numbered`: the spec's example
`questions = [Q1, Q2, Q3]` renders three items numbered 1..3 in order. -/
theorem questions_rendered_numbered_witness :
    (questions_button_handler (some ("sk"))
        (fun _ => Except.ok ⟨"Data Scientist", ["Q1", "Q2", "Q3"]⟩)
        ("Data Scientist")).1
      = Display.success ("Questions Generated!")
          :: renderQuestions (["Q1", "Q2", "Q3"]) ∧
    (renderQuestions (["Q1", "Q2", "Q3"])).length = (["Q1", "Q2", "Q3"] : List String).length ∧
    ∀ i : Nat, (renderQuestions (["Q1", "Q2", "Q3"]))[i]?
      = ((["Q1", "Q2", "Q3"] : List String)[i]?).map
          (fun q => Display.markdown ("**Q" ++ toString (i + 1) ++ ".** " ++ q)) :=
  questions_rendered_numbered (some ("sk")) rfl
    (fun _ => Except.ok ⟨"Data Scientist", ["Q1", "Q2", "Q3"]⟩)
    ("Data Scientist") (by decide) ⟨"Data Scientist", ["Q1", "Q2", "Q3"]⟩ rfl

/-- C7: in every session-reachable credential state, `is_api_key_set`
returns true iff a non-empty credential string is stored.  Reachable states
are `none` initially and results of the sidebar update, which only ever
stores non-empty strings; hence the `is not None` test coincides with
"a non-empty credential is stored". -/
theorem is_api_key_set_iff_nonempty {s : Option String}
    (h : ReachableKey s) :
    is_api_key_set s = true ↔ ∃ k, s = some k ∧ k ≠ "" := by
  rcases reachable_key_nonempty h with rfl | ⟨k, rfl, hk⟩
  · simp [is_api_key_set]
  · exact ⟨fun _ => ⟨k, rfl, hk⟩, fun _ => rfl⟩

/-- Concrete instance of `is_api_key_set_iff_nonempty` at the state reached
by entering the key "sk-abc" into the fresh session's sidebar. -/
theorem is_api_key_set_iff_nonempty_witness :
    is_api_key_set ((sidebar_update none ("sk-abc")).1) = true ↔
      ∃ k, (sidebar_update none ("sk-abc")).1 = some k ∧ k ≠ "" :=
  is_api_key_set_iff_nonempty (ReachableKey.step ("sk-abc") ReachableKey.init)

/-- C8 counterexample: it is not true that every structured result returned
successfully by the gateway has non-empty fields.  With a key set and a
provider whose parsed response has empty `career` and `reasons`, the
gateway returns that object as a success: no non-emptiness validation is
performed locally. -/
theorem gateway_empty_fields_counterexample :
    ¬ ∀ (key : Option String)
        (pc : String → Except String CareerSuggestion)
        (interests skills goals : String) (r : CareerSuggestion),
        (generate_career_guidance key pc interests skills goals).ret = some r →
        r.career ≠ "" ∧ r.reasons ≠ "" := by
  intro h
  have hc := h (some ("sk")) (fun _ => Except.ok ⟨"", ""⟩)
    ("AI") ("coding") ("startup") ⟨"", ""⟩ rfl
  exact hc.1 rfl

/-- C8 amended: a structured result returned successfully by a gateway
operation is the provider's parsed object verbatim — the gateway adds no
validation, so its fields are non-empty exactly when the provider returned
them non-empty. -/
theorem gateway_returns_provider_object (key : Option String)
    (hk : is_api_key_set key = true)
    (pc : String → Except String CareerSuggestion)
    (interests skills goals : String) (r : CareerSuggestion)
    (hc : pc (careerPrompt interests skills goals) = Except.ok r)
    (pq : String → Except String InterviewQuestions)
    (role : String) (q : InterviewQuestions)
    (hq : pq (interviewPrompt role) = Except.ok q) :
    (generate_career_guidance key pc interests skills goals).ret = some r ∧
    (generate_interview_questions key pq role).ret = some q := by
  simp [generate_career_guidance, generate_interview_questions, hk, hc, hq]

/-- Concrete instance of `gateway_returns_provider_object`. -/
theorem gateway_returns_provider_object_witness :
    (generate_career_guidance (some ("sk"))
        (fun _ => Except.ok ⟨"ML Engineer", "fit"⟩) ("AI") ("coding") ("startup")).ret
      = some ⟨"ML Engineer", "fit"⟩ ∧
    (generate_interview_questions (some ("sk"))
        (fun _ => Except.ok ⟨"dev", ["q1"]⟩) ("dev")).ret
      = some ⟨"dev", ["q1"]⟩ :=
  gateway_returns_provider_object (some ("sk")) rfl _ ("AI") ("coding") ("startup")
    ⟨"ML Engineer", "fit"⟩ rfl _ ("dev") ⟨"dev", ["q1"]⟩ rfl

/-- C9: once a non-empty credential is stored, the sidebar update never
clears it: a non-empty input overwrites it, an empty input leaves the prior
value in place, and in either case a non-empty credential remains stored. -/
theorem credential_never_cleared (prev : Option String) (k input : String)
    (hprev : prev = some k) (hk : k ≠ "") :
    (input ≠ "" → (sidebar_update prev input).1 = some input) ∧
    (input = "" → (sidebar_update prev input).1 = prev) ∧
    ∃ j, (sidebar_update prev input).1 = some j ∧ j ≠ "" := by
  subst hprev
  by_cases hi : input = ""
  · exact ⟨fun h => absurd hi h, fun _ => by simp [sidebar_update, hi],
      ⟨k, by simp [sidebar_update, hi], hk⟩⟩
  · exact ⟨fun _ => by simp [sidebar_update, hi], fun h => absurd h hi,
      ⟨input, by simp [sidebar_update, hi], hi⟩⟩

/-- Concrete instance of `credential_never_cleared`: submitting an empty
field after "old-key" was stored leaves "old-key" stored. -/
theorem credential_never_cleared_witness :
    ((("") : String) ≠ "" → (sidebar_update (some ("old-key")) ("")).1 = some ("")) ∧
    ((("") : String) = "" → (sidebar_update (some ("old-key")) ("")).1 = some ("old-key")) ∧
    ∃ j, (sidebar_update (some ("old-key")) ("")).1 = some j ∧ j ≠ "" :=
  credential_never_cleared (some ("old-key")) ("old-key") ("") rfl (by decide)

/-- C10: the "Run Example" action never performs a provider call in any
credential state; without a key it shows the missing-credential error, with
a key it renders the fixed hard-coded poem block and success message. -/
theorem run_example_no_provider_call :
    (∀ key, (run_example_handler key).2 = 0) ∧
    (run_example_handler none).1 = [Display.error missingKeyMsg] ∧
    ∀ k, (run_example_handler (some k)).1
      = [Display.markdown ("---"), Display.markdown examplePoem,
         Display.success ("Yay! See how easy it is to create magic with ell? 🎉")] := by
  refine ⟨fun key => ?_, by simp [run_example_handler, is_api_key_set],
    fun k => by simp [run_example_handler, is_api_key_set]⟩
  cases key <;> simp [run_example_handler, is_api_key_set]
